import Mathlib

/-!
Verification of the enhanced delete subsystem of the construction-estimate
manager repository.  The definitions below are a shallow embedding of
`src/utils/deleteHelpers.js` (error classification, optimistic delete
manager, retry manager, delete statistics), of the performance/memory
utilities concatenated in the same file (memory-leak detector, event
listener registry), and of the orchestrating hook
`src/hooks/useEnhancedDelete.js` (`executeDelete`).

Modelling conventions:
* JavaScript `Map` objects are modelled by `MapM`, an association list with
  insertion-order semantics: `set` replaces the value in place when the key
  exists and appends otherwise, `delete` removes the entry, iteration order
  is list order.  Plain-object state (`deletingStates`, `deleteErrors`,
  `errorTypes`) uses the same model, since the code only ever reads, spreads
  and overwrites single keys.
* JavaScript `null`/`undefined` distinctions that the claims depend on are
  kept: a `deleteErrors` entry that is present with value `null` is
  `some none`, an absent entry is `none`.
* Numbers: counters are `Nat` or `Int` exactly as the code can produce them
  (`Math.max(0, c - 1)` is modelled over `Int` so the flooring is visible);
  latency samples are `Int` (`Date.now() - start`); the recomputed average
  uses exact rational division in place of IEEE doubles, and `toFixed(1)`
  is modelled as decimal rounding (half away from zero on the exact value),
  which agrees with JavaScript on every value these claims exercise.
* Asynchrony: each `executeDelete` run is single-threaded between its await
  points and nothing else mutates its state, so the run is modelled as a
  pure function from inputs (including the behaviour of the caller-supplied
  delete operation, indexed by invocation number) to the final state plus an
  ordered trace of observable effects (UI-callback invocations, underlying
  delete calls, success/error callbacks).  Timer scheduling for the leak
  detector is modelled by an explicit `TimerWorld` of live interval ids.
-/

/-! ## A model of JavaScript `Map` (insertion-ordered association list)

A `Map` built through `set`/`delete` never holds two entries with the same
key, and all the code under verification builds its maps that way, so `set`
is defined by first-occurrence replacement. -/

def MapM (α β : Type) : Type := List (α × β)

instance {α β : Type} [DecidableEq α] [DecidableEq β] : DecidableEq (MapM α β) :=
  inferInstanceAs (DecidableEq (List (α × β)))

namespace MapM

variable {α β : Type} [DecidableEq α]

def empty {α β : Type} : MapM α β := []

def get : MapM α β → α → Option β
  | [], _ => none
  | p :: t, k => if p.1 = k then some p.2 else get t k

def hasKey (m : MapM α β) (k : α) : Bool :=
  (m.get k).isSome

/-- `Map.prototype.set`: replace in place if the key exists, else append. -/
def set : MapM α β → α → β → MapM α β
  | [], k, v => [(k, v)]
  | p :: t, k, v => if p.1 = k then (k, v) :: t else p :: set t k v

/-- `Map.prototype.delete` (also used for `clear` via `empty`). -/
def del : MapM α β → α → MapM α β
  | [], _ => []
  | p :: t, k => if p.1 = k then del t k else p :: del t k

def keys (m : MapM α β) : List α := m.map (·.1)

def size (m : MapM α β) : Nat := m.length

@[simp] theorem get_empty (k : α) : (empty : MapM α β).get k = none := rfl

@[simp] theorem get_set_self (m : MapM α β) (k : α) (v : β) :
    (m.set k v).get k = some v := by
  induction m with
  | nil => simp [set, get]
  | cons p t ih =>
    by_cases h : p.1 = k
    · simp [set, get, h]
    · simp [set, get, h, ih]

@[simp] theorem get_set_ne (m : MapM α β) (k k' : α) (v : β) (h : k' ≠ k) :
    (m.set k v).get k' = m.get k' := by
  induction m with
  | nil => simp [set, get, Ne.symm h]
  | cons p t ih =>
    by_cases hp : p.1 = k
    · simp [set, get, hp, Ne.symm h]
    · simp [set, get, hp, ih]

@[simp] theorem get_del_self (m : MapM α β) (k : α) :
    (m.del k).get k = none := by
  induction m with
  | nil => simp [del, get]
  | cons p t ih =>
    by_cases h : p.1 = k
    · simp [del, h, ih]
    · simp [del, get, h, ih]

@[simp] theorem get_del_ne (m : MapM α β) (k k' : α) (h : k' ≠ k) :
    (m.del k).get k' = m.get k' := by
  induction m with
  | nil => simp [del]
  | cons p t ih =>
    by_cases hp : p.1 = k
    · have hne : ¬ p.1 = k' := fun hc => h (hc ▸ hp :)
      simp [del, get, hp, hne, Ne.symm h, ih]
    · simp [del, get, hp, ih]

theorem hasKey_set (m : MapM α β) (k k' : α) (v : β) :
    (m.set k v).hasKey k' = if k' = k then true else m.hasKey k' := by
  by_cases h : k' = k
  · subst h; simp [hasKey]
  · simp [hasKey, h, get_set_ne m k k' v h]

theorem hasKey_del (m : MapM α β) (k k' : α) :
    (m.del k).hasKey k' = if k' = k then false else m.hasKey k' := by
  by_cases h : k' = k
  · subst h; simp [hasKey]
  · simp [hasKey, h, get_del_ne m k k' h]

theorem del_of_not_hasKey (m : MapM α β) (k : α) (h : m.hasKey k = false) :
    m.del k = m := by
  induction m with
  | nil => rfl
  | cons p t ih =>
    by_cases hp : p.1 = k
    · simp [hasKey, get, hp] at h
    · simp only [hasKey, get, hp, if_neg hp] at h
      simp [del, hp, ih (by simpa [hasKey] using h)]

end MapM

/-! ## Error classification (`getErrorType`, `deleteHelpers.js` lines 10-34) -/

/-- `String.prototype.includes`: `strIncludes s pat` is true iff `pat` occurs
as a contiguous substring of `s`. -/
def strIncludes (s pat : String) : Bool :=
  s.toList.tails.any (fun t => pat.toList.isPrefixOf t)

/-- A JavaScript error value: an optional `message` plus an identity tag
`eid` so that "the error propagates unchanged" is expressible. -/
structure JsError where
  message : Option String := none
  eid : Nat := 0
deriving DecidableEq

/-- `String.prototype.toLowerCase` (the messages involved are ASCII). -/
def strToLower (s : String) : String := String.mk (s.data.map Char.toLower)

/-- `error?.message?.toLowerCase() || ''` (an empty message is falsy and
also yields `""`). -/
def errorMessageLower (error : Option JsError) : String :=
  ((error.bind JsError.message).map strToLower).getD ""

/-- `getErrorType` from `deleteHelpers.js`. -/
def getErrorType (error : Option JsError) : String :=
  let message := errorMessageLower error
  if strIncludes message "network" || strIncludes message "fetch" ||
      strIncludes message "connection" then "network"
  else if strIncludes message "permission" || strIncludes message "unauthorized" ||
      strIncludes message "forbidden" then "permission"
  else if strIncludes message "not found" || strIncludes message "404" then "not_found"
  else if strIncludes message "timeout" then "timeout"
  else if strIncludes message "conflict" || strIncludes message "409" then "conflict"
  else "default"

/-! ## Error guidance table (`handleDeleteError`, lines 42-85) -/

structure ErrorInfo where
  message : String
  action : String
  severity : String
  retryable : Bool
deriving DecidableEq

/-- `handleDeleteError` from `deleteHelpers.js`: the static
`errorMappings` table indexed by `getErrorType`.  The JS fallback
`errorMappings[errorType] || errorMappings.default` is unreachable because
the classifier only returns the six listed keys. -/
def handleDeleteError (error : Option JsError) (projectTitle : String) : ErrorInfo :=
  let errorType := getErrorType error
  if errorType = "network" then
    ⟨"ネットワークエラーが発生しました。インターネット接続を確認して再度お試しください。",
     "retry", "warning", true⟩
  else if errorType = "permission" then
    ⟨"削除権限がありません。再ログインしてから再度お試しください。",
     "reauth", "error", false⟩
  else if errorType = "not_found" then
    ⟨"プロジェクトが見つかりません。ページを更新してください。",
     "refresh", "info", false⟩
  else if errorType = "timeout" then
    ⟨"タイムアウトが発生しました。しばらく待ってから再度お試しください。",
     "retry", "warning", true⟩
  else if errorType = "conflict" then
    ⟨"データが他のユーザーによって変更されています。ページを更新してください。",
     "refresh", "warning", false⟩
  else
    ⟨"プロジェクト「" ++ projectTitle ++ "」の削除に失敗しました。",
     "none", "error", true⟩

/-! ## Project snapshots and the UI state transformations -/

/-- An entity snapshot.  `created_at` is the recency field, modelled as a
timestamp (`new Date(p.created_at)` in the code). -/
structure Project where
  id : String
  title : String
  created_at : Int := 0
deriving DecidableEq

/-- Stable insertion into a list sorted by `created_at` descending. -/
def insertDesc (p : Project) : List Project → List Project
  | [] => [p]
  | q :: t => if p.created_at > q.created_at then p :: q :: t else q :: insertDesc p t

/-- The `sort((a, b) => new Date(b.created_at) - new Date(a.created_at))`
call: a stable sort, newest first (`Array.prototype.sort` is stable). -/
def sortByCreatedAtDesc (l : List Project) : List Project :=
  l.foldl (fun acc p => insertDesc p acc) []

/-- The collection transformations that the core hands to the caller's
state-update callback. -/
inductive StateTransform
  | removeById (projectId : String)
  | reinsert (projectId : String) (projectData : Project)
deriving DecidableEq

/-- What each transformation does to the caller's collection, read off the
two closures in `optimisticDelete` and `rollbackDelete`. -/
def applyTransform : StateTransform → List Project → List Project
  | .removeById pid, prevProjects => prevProjects.filter (fun project => project.id ≠ pid)
  | .reinsert pid projectData, prevProjects =>
    if prevProjects.any (fun p => p.id = pid) then prevProjects
    else sortByCreatedAtDesc (prevProjects ++ [projectData])

/-! ## `OptimisticDeleteManager` (lines 90-156)

The manager is generic in the type `κ` of callback tokens; invoking a stored
callback with a transformation is recorded in the returned invocation list
(the model of the side effect).  Snapshots are records, hence always truthy,
so the JS guard `if (projectData && rollbackCallback)` is presence of both
map entries. -/

structure OptimisticDeleteManager (κ : Type) where
  deletedProjects : MapM String Project
  rollbackCallbacks : MapM String κ
deriving DecidableEq

namespace OptimisticDeleteManager

variable {κ : Type} [DecidableEq κ]

def empty : OptimisticDeleteManager κ := ⟨MapM.empty, MapM.empty⟩

def optimisticDelete (m : OptimisticDeleteManager κ) (projectId : String)
    (projectData : Project) (updateStateCallback : κ) :
    OptimisticDeleteManager κ × List (κ × StateTransform) :=
  ({ deletedProjects := m.deletedProjects.set projectId projectData,
     rollbackCallbacks := m.rollbackCallbacks.set projectId updateStateCallback },
   [(updateStateCallback, .removeById projectId)])

def confirmDelete (m : OptimisticDeleteManager κ) (projectId : String) :
    OptimisticDeleteManager κ :=
  { deletedProjects := m.deletedProjects.del projectId,
    rollbackCallbacks := m.rollbackCallbacks.del projectId }

def rollbackDelete (m : OptimisticDeleteManager κ) (projectId : String) :
    OptimisticDeleteManager κ × List (κ × StateTransform) :=
  match m.deletedProjects.get projectId, m.rollbackCallbacks.get projectId with
  | some projectData, some rollbackCallback =>
      ({ deletedProjects := m.deletedProjects.del projectId,
         rollbackCallbacks := m.rollbackCallbacks.del projectId },
       [(rollbackCallback, .reinsert projectId projectData)])
  | _, _ => (m, [])

def clearAll (_ : OptimisticDeleteManager κ) : OptimisticDeleteManager κ :=
  ⟨MapM.empty, MapM.empty⟩

/-- An id is pending when a snapshot is stored for it. -/
def pending (m : OptimisticDeleteManager κ) (projectId : String) : Bool :=
  m.deletedProjects.hasKey projectId

end OptimisticDeleteManager

/-! ## `DeleteRetryManager` (lines 161-195)

The caller-supplied delete operation is modelled by its behaviour per
invocation: `deleteFunction n` is what the n-th call (0-based) does.  In
`retryDelete` the invocation index always equals the `attempt` argument,
since every recursion level makes exactly one call.  The source guard is
`errorInfo.retryable && attempt < this.maxRetries`; here the recursion is
driven by `remaining = maxRetries - attempt`, which is positive exactly when
`attempt < maxRetries`, and each retry decrements it while incrementing
`attempt`. -/

/-- A resolved JavaScript value: its truthiness plus an identity tag. -/
structure JsValue where
  truthy : Bool
  vid : Nat := 0
deriving DecidableEq

inductive DelOutcome
  | resolve (v : JsValue)
  | reject (e : JsError)
deriving DecidableEq

instance {ε α : Type} [DecidableEq ε] [DecidableEq α] : DecidableEq (Except ε α) := fun x y =>
  match x, y with
  | .error a, .error b =>
    if h : a = b then isTrue (h ▸ rfl) else isFalse (fun hc => h (Except.error.inj hc))
  | .ok a, .ok b =>
    if h : a = b then isTrue (h ▸ rfl) else isFalse (fun hc => h (Except.ok.inj hc))
  | .error _, .ok _ => isFalse (fun hc => Except.noConfusion hc)
  | .ok _, .error _ => isFalse (fun hc => Except.noConfusion hc)

structure RetryResult where
  result : Except JsError JsValue
  /-- The invocation indices of the calls made to the delete operation. -/
  callList : List Nat
  /-- The backoff delays awaited, in order (`baseDelay * 2^attempt`). -/
  delays : List Nat
deriving DecidableEq

def retryDeleteAux (baseDelay : Nat) (deleteFunction : Nat → DelOutcome) :
    Nat → Nat → RetryResult
  | remaining, attempt =>
    match deleteFunction attempt with
    | .resolve v => ⟨.ok v, [attempt], []⟩
    | .reject error =>
      if (handleDeleteError (some error) "").retryable then
        match remaining with
        | r + 1 =>
          let rest := retryDeleteAux baseDelay deleteFunction r (attempt + 1)
          ⟨rest.result, attempt :: rest.callList, baseDelay * 2 ^ attempt :: rest.delays⟩
        | 0 => ⟨.error error, [attempt], []⟩
      else ⟨.error error, [attempt], []⟩

structure DeleteRetryManager where
  maxRetries : Nat := 3
  baseDelay : Nat := 1000
deriving DecidableEq

def DeleteRetryManager.retryDelete (rm : DeleteRetryManager)
    (deleteFunction : Nat → DelOutcome) (attempt : Nat) : RetryResult :=
  retryDeleteAux rm.baseDelay deleteFunction (rm.maxRetries - attempt) attempt

/-! ## `DeleteStatsManager` (lines 200-281)

`startDelete` returns `Date.now()`; the elapsed time `Date.now() - start`
observed at each record call is threaded in as an explicit input.  The
average is exact rational arithmetic in place of IEEE doubles. -/

def MapM.entries {α β : Type} (m : MapM α β) : List (α × β) := m

structure DeleteStatsManager where
  totalDeletes : Nat := 0
  successfulDeletes : Nat := 0
  failedDeletes : Nat := 0
  errorTypes : MapM String Nat := MapM.empty
  averageResponseTime : Rat := 0
  responseTimes : List Int := []
deriving DecidableEq

/-- `arr.slice(-n)`: the last at-most-`n` elements. -/
def lastN (n : Nat) (l : List Int) : List Int := l.drop (l.length - n)

def DeleteStatsManager.recordSuccess (s : DeleteStatsManager) (responseTime : Int) :
    DeleteStatsManager :=
  let responseTimes := s.responseTimes ++ [responseTime]
  let recentTimes := lastN 100 responseTimes
  { s with
    totalDeletes := s.totalDeletes + 1,
    successfulDeletes := s.successfulDeletes + 1,
    responseTimes := responseTimes,
    averageResponseTime := mkRat recentTimes.sum recentTimes.length }

def DeleteStatsManager.recordFailure (s : DeleteStatsManager) (responseTime : Int)
    (error : Option JsError) : DeleteStatsManager :=
  let errorType := getErrorType error
  let responseTimes := s.responseTimes ++ [responseTime]
  let recentTimes := lastN 100 responseTimes
  { s with
    totalDeletes := s.totalDeletes + 1,
    failedDeletes := s.failedDeletes + 1,
    responseTimes := responseTimes,
    errorTypes := s.errorTypes.set errorType ((s.errorTypes.get errorType).getD 0 + 1),
    averageResponseTime := mkRat recentTimes.sum recentTimes.length }

/-- The `successRate` field of `getStats()`: a string when `totalDeletes > 0`
(the `toFixed(1)` result), the number `0` otherwise. -/
inductive SuccessRate
  | str (s : String)
  | num (n : Nat)
deriving DecidableEq

/-- `Number.prototype.toFixed(1)` for the non-negative values produced by
the success-rate computation: round to the nearest tenth, half up, and
print with one decimal.  `tenths = ⌊q * 10 + 1/2⌋`, computed over the
numerator and denominator directly. -/
def toFixed1 (q : Rat) : String :=
  let tenths : Int := Int.fdiv (20 * q.num + (q.den : Int)) (2 * (q.den : Int))
  toString (tenths / 10) ++ "." ++ toString ((tenths % 10).natAbs)

structure StatsView extends DeleteStatsManager where
  successRate : SuccessRate
deriving DecidableEq

def DeleteStatsManager.getStats (s : DeleteStatsManager) : StatsView :=
  { toDeleteStatsManager := s,
    successRate :=
      if s.totalDeletes > 0 then
        -- `(successfulDeletes / totalDeletes * 100)` as an exact rational
        .str (toFixed1 (mkRat (100 * (s.successfulDeletes : Int)) s.totalDeletes))
      else .num 0 }

def DeleteStatsManager.resetStats (_ : DeleteStatsManager) : DeleteStatsManager := {}

/-! ## `MemoryLeakDetector` (performance utilities, lines 414-484)

Tracked objects are identified by the key type `κ` (a `WeakMap` key in the
source).  Interval timers are modelled by an explicit `TimerWorld`: a fresh
positive id per `setInterval`, a set of live timers, `clearInterval` removes
one.  Browser timer ids are positive, so the truthiness test
`if (this.checkInterval)` is `Option` presence. -/

structure RefInfo where
  type : String
  createdAt : Nat := 0
deriving DecidableEq

structure TimerWorld where
  nextId : Nat := 1
  active : List Nat := []
deriving DecidableEq

structure MemoryLeakDetector (κ : Type) where
  references : MapM κ RefInfo
  counters : MapM String Int
  checkInterval : Option Nat := none
deriving DecidableEq

namespace MemoryLeakDetector

variable {κ : Type} [DecidableEq κ]

def empty : MemoryLeakDetector κ := ⟨MapM.empty, MapM.empty, none⟩

def trackObject (d : MemoryLeakDetector κ) (obj : κ) (type : String) (now : Nat) :
    MemoryLeakDetector κ :=
  let currentCount := (d.counters.get type).getD 0
  { d with
    references := d.references.set obj ⟨type, now⟩,
    counters := d.counters.set type (currentCount + 1) }

def untrackObject (d : MemoryLeakDetector κ) (obj : κ) : MemoryLeakDetector κ :=
  match d.references.get obj with
  | some ref =>
    let currentCount := (d.counters.get ref.type).getD 0
    { d with
      counters := d.counters.set ref.type (max 0 (currentCount - 1)),
      references := d.references.del obj }
  | none => d

/-- `startLeakDetection`: unconditionally creates a new interval timer and
overwrites `checkInterval` with its id (the source never clears a previous
timer here). -/
def startLeakDetection (d : MemoryLeakDetector κ) (w : TimerWorld) :
    MemoryLeakDetector κ × TimerWorld :=
  let tid := w.nextId
  ({ d with checkInterval := some tid },
   { nextId := tid + 1, active := w.active ++ [tid] })

def stopLeakDetection (d : MemoryLeakDetector κ) (w : TimerWorld) :
    MemoryLeakDetector κ × TimerWorld :=
  match d.checkInterval with
  | some tid =>
    ({ d with checkInterval := none },
     { w with active := w.active.filter (fun i => i ≠ tid) })
  | none => (d, w)

/-- `checkForLeaks`: the `console.warn` emissions, one per tag whose counter
exceeds 100, in counter-map iteration order. -/
def checkForLeaks (d : MemoryLeakDetector κ) : List (String × Int) :=
  d.counters.entries.filter (fun p => 100 < p.2)

def getTrackingStatus (d : MemoryLeakDetector κ) : List (String × Int) :=
  d.counters.entries

/-- The per-tag counter as read through `get(type) || 0`. -/
def counterOf (d : MemoryLeakDetector κ) (type : String) : Int :=
  (d.counters.get type).getD 0

end MemoryLeakDetector

/-! ## `EventListenerManager` (performance utilities, lines 489-554) -/

structure EvtTarget where
  ctorName : String
  tid : Nat := 0
deriving DecidableEq

/-- A JavaScript function value used as a listener: its `name` property
(`""` for anonymous functions) plus an identity tag. -/
structure JsListener where
  name : String := ""
  lid : Nat := 0
deriving DecidableEq

structure ListenerInfo where
  target : EvtTarget
  type : String
  listener : JsListener
  options : Nat := 0
deriving DecidableEq

structure EventListenerManager where
  listeners : MapM String ListenerInfo
deriving DecidableEq

/-- `getListenerKey`: `` `${target.constructor.name}-${type}-${listener.name || 'anonymous'}` ``. -/
def getListenerKey (target : EvtTarget) (type : String) (listener : JsListener) : String :=
  target.ctorName ++ "-" ++ type ++ "-" ++
    (if listener.name = "" then "anonymous" else listener.name)

namespace EventListenerManager

def empty : EventListenerManager := ⟨MapM.empty⟩

/-- `addEventListener`: registers on the target and records the listener
only when the key is not already present.  The second component lists the
actual `target.addEventListener` invocations performed. -/
def addEventListener (m : EventListenerManager) (target : EvtTarget) (type : String)
    (listener : JsListener) (options : Nat) :
    EventListenerManager × List (EvtTarget × String × JsListener) :=
  let key := getListenerKey target type listener
  if m.listeners.hasKey key then (m, [])
  else (⟨m.listeners.set key ⟨target, type, listener, options⟩⟩, [(target, type, listener)])

def removeEventListener (m : EventListenerManager) (target : EvtTarget) (type : String)
    (listener : JsListener) : EventListenerManager × List (EvtTarget × String × JsListener) :=
  let key := getListenerKey target type listener
  match m.listeners.get key with
  | some info => (⟨m.listeners.del key⟩, [(info.target, info.type, info.listener)])
  | none => (m, [])

def getListenerCount (m : EventListenerManager) : Nat :=
  m.listeners.size

end EventListenerManager

/-! ## The orchestrator: `executeDelete` from `useEnhancedDelete.js` (lines 44-128)

One `executeDelete` run is modelled as a pure function.  Inputs beyond the
hook state: the behaviour of the caller's delete operation per invocation,
whether an update callback was supplied (`hasUpdateCb`), the clock reading
at the start (`now`, only recorded in the leak tracker) and the elapsed
time observed by the statistics record call (`elapsed`).  Output: the new
hook state, the ordered trace of observable effects and the returned
boolean.  The performance monitor is not included: `startOperation` /
`endOperation` only ever append to the metrics registry and emit console
warnings, none of which feeds back into any state or callback the claims
mention. -/

structure DeleteConfig where
  enableOptimisticUpdates : Bool := true
  enableRetry : Bool := true
  maxRetries : Nat := 3
deriving DecidableEq

/-- Observable effects of one `executeDelete` run, in order: UI
state-update callback invocations, underlying delete-operation calls
(by invocation index), and the terminal success/error callback. -/
inductive Ev
  | uiUpdate (t : StateTransform)
  | deleteCall (attempt : Nat)
  | successCb (projectId : String) (projectData : Option Project)
  | errorCb (projectId : String) (error : JsError) (info : ErrorInfo)
deriving DecidableEq

structure HookState where
  deletingStates : MapM String Bool := MapM.empty
  deleteErrors : MapM String (Option ErrorInfo) := MapM.empty
  optimistic : OptimisticDeleteManager Unit := OptimisticDeleteManager.empty
  stats : DeleteStatsManager := {}
  leak : MemoryLeakDetector Project := MemoryLeakDetector.empty
deriving DecidableEq

/-- The `enableRetry = false` branch: one direct call to the delete
operation. -/
def singleCall (deleteFunction : Nat → DelOutcome) : RetryResult :=
  match deleteFunction 0 with
  | .resolve v => ⟨.ok v, [0], []⟩
  | .reject e => ⟨.error e, [0], []⟩

/-- The `catch` block of `executeDelete` (lines 95-123): rollback when
optimistic updates are enabled, store the guidance, record the failure,
untrack, fire the error callback; the `finally` clears the deleting flag.
Returns the state, the trailing trace events and the returned `false`. -/
def executeDeleteFailure (cfg : DeleteConfig) (projectId : String)
    (projectData : Option Project) (error : JsError)
    (deleting : MapM String Bool) (errors : MapM String (Option ErrorInfo))
    (opt : OptimisticDeleteManager Unit) (stats : DeleteStatsManager)
    (leak : MemoryLeakDetector Project) (elapsed : Int) :
    HookState × List Ev × Bool :=
  let rbp := if cfg.enableOptimisticUpdates then opt.rollbackDelete projectId else (opt, [])
  let errorInfo := handleDeleteError (some error) ((projectData.map Project.title).getD "")
  let errors2 := errors.set projectId (some errorInfo)
  let stats2 := stats.recordFailure elapsed (some error)
  let leak2 := match projectData with
    | some pd => leak.untrackObject pd
    | none => leak
  let deleting2 := deleting.set projectId false
  ({ deletingStates := deleting2, deleteErrors := errors2, optimistic := rbp.1,
     stats := stats2, leak := leak2 },
   rbp.2.map (fun inv => Ev.uiUpdate inv.2) ++ [Ev.errorCb projectId error errorInfo],
   false)

def executeDelete (cfg : DeleteConfig) (st : HookState) (projectId : String)
    (projectData : Option Project) (hasUpdateCb : Bool)
    (deleteFunction : Nat → DelOutcome) (now : Nat) (elapsed : Int) :
    HookState × List Ev × Bool :=
  let leak1 := match projectData with
    | some pd => st.leak.trackObject pd "DeleteProjectData" now
    | none => st.leak
  let deleting1 := st.deletingStates.set projectId true
  let errors1 := st.deleteErrors.set projectId none
  let optp : OptimisticDeleteManager Unit × List (Unit × StateTransform) :=
    match cfg.enableOptimisticUpdates, projectData, hasUpdateCb with
    | true, some pd, true => st.optimistic.optimisticDelete projectId pd ()
    | _, _, _ => (st.optimistic, [])
  let optEvs := optp.2.map (fun inv => Ev.uiUpdate inv.2)
  let rr := if cfg.enableRetry
    then DeleteRetryManager.retryDelete ⟨cfg.maxRetries, 1000⟩ deleteFunction 0
    else singleCall deleteFunction
  let callEvs := rr.callList.map Ev.deleteCall
  match rr.result with
  | .ok v =>
    if v.truthy then
      let opt2 := optp.1.confirmDelete projectId
      let stats2 := st.stats.recordSuccess elapsed
      let leak2 := match projectData with
        | some pd => leak1.untrackObject pd
        | none => leak1
      let deleting2 := deleting1.set projectId false
      ({ deletingStates := deleting2, deleteErrors := errors1, optimistic := opt2,
         stats := stats2, leak := leak2 },
       optEvs ++ callEvs ++ [Ev.successCb projectId projectData], true)
    else
      let fr := executeDeleteFailure cfg projectId projectData
        ⟨some "削除処理が失敗しました", 0⟩ deleting1 errors1 optp.1 st.stats leak1 elapsed
      (fr.1, optEvs ++ callEvs ++ fr.2.1, fr.2.2)
  | .error e =>
    let fr := executeDeleteFailure cfg projectId projectData e
      deleting1 errors1 optp.1 st.stats leak1 elapsed
    (fr.1, optEvs ++ callEvs ++ fr.2.1, fr.2.2)

/-- `isDeleting`: `Boolean(deletingStates[projectId])`. -/
def isDeleting (st : HookState) (projectId : String) : Bool :=
  (st.deletingStates.get projectId).getD false

/-- `getDeleteError`: `deleteErrors[projectId]`.  `none` is JavaScript
`undefined` (no entry); `some none` is an entry whose value is `null`. -/
def getDeleteError (st : HookState) (projectId : String) : Option (Option ErrorInfo) :=
  st.deleteErrors.get projectId

/-! Concrete inputs for the end-to-end scenario of the spec (§8): project
"p1", a delete operation that rejects with `Error("network timeout")` on
its first three invocations and resolves `true` afterwards. -/

def roofRepair : Project := { id := "p1", title := "Roof Repair", created_at := 0 }

def netTimeoutErr : JsError := { message := some "network timeout", eid := 1 }

def dfNetThenOk : Nat → DelOutcome := fun n =>
  if n < 3 then .reject netTimeoutErr else .resolve { truthy := true, vid := 7 }

/-! ## Claim theorems -/

/-- **C3.** For every error object (including a null/undefined error or an
error without a message), classification lower-cases the message (empty
string if absent) and returns the first match in the fixed priority order:
network tokens before permission tokens before not-found tokens before
"timeout" before conflict tokens; a message matching none of these
classifies as `"default"`.  The function is total and pure (it is a total
Lean function, so no input is unclassifiable and none throws). -/
theorem getErrorType_spec :
    (∀ error : Option JsError,
      (strIncludes (errorMessageLower error) "network" = true ∨
       strIncludes (errorMessageLower error) "fetch" = true ∨
       strIncludes (errorMessageLower error) "connection" = true) →
      getErrorType error = "network")
    ∧ (∀ error : Option JsError,
      strIncludes (errorMessageLower error) "network" = false →
      strIncludes (errorMessageLower error) "fetch" = false →
      strIncludes (errorMessageLower error) "connection" = false →
      (strIncludes (errorMessageLower error) "permission" = true ∨
       strIncludes (errorMessageLower error) "unauthorized" = true ∨
       strIncludes (errorMessageLower error) "forbidden" = true) →
      getErrorType error = "permission")
    ∧ (∀ error : Option JsError,
      strIncludes (errorMessageLower error) "network" = false →
      strIncludes (errorMessageLower error) "fetch" = false →
      strIncludes (errorMessageLower error) "connection" = false →
      strIncludes (errorMessageLower error) "permission" = false →
      strIncludes (errorMessageLower error) "unauthorized" = false →
      strIncludes (errorMessageLower error) "forbidden" = false →
      (strIncludes (errorMessageLower error) "not found" = true ∨
       strIncludes (errorMessageLower error) "404" = true) →
      getErrorType error = "not_found")
    ∧ (∀ error : Option JsError,
      strIncludes (errorMessageLower error) "network" = false →
      strIncludes (errorMessageLower error) "fetch" = false →
      strIncludes (errorMessageLower error) "connection" = false →
      strIncludes (errorMessageLower error) "permission" = false →
      strIncludes (errorMessageLower error) "unauthorized" = false →
      strIncludes (errorMessageLower error) "forbidden" = false →
      strIncludes (errorMessageLower error) "not found" = false →
      strIncludes (errorMessageLower error) "404" = false →
      strIncludes (errorMessageLower error) "timeout" = true →
      getErrorType error = "timeout")
    ∧ (∀ error : Option JsError,
      strIncludes (errorMessageLower error) "network" = false →
      strIncludes (errorMessageLower error) "fetch" = false →
      strIncludes (errorMessageLower error) "connection" = false →
      strIncludes (errorMessageLower error) "permission" = false →
      strIncludes (errorMessageLower error) "unauthorized" = false →
      strIncludes (errorMessageLower error) "forbidden" = false →
      strIncludes (errorMessageLower error) "not found" = false →
      strIncludes (errorMessageLower error) "404" = false →
      strIncludes (errorMessageLower error) "timeout" = false →
      (strIncludes (errorMessageLower error) "conflict" = true ∨
       strIncludes (errorMessageLower error) "409" = true) →
      getErrorType error = "conflict")
    ∧ (∀ error : Option JsError,
      strIncludes (errorMessageLower error) "network" = false →
      strIncludes (errorMessageLower error) "fetch" = false →
      strIncludes (errorMessageLower error) "connection" = false →
      strIncludes (errorMessageLower error) "permission" = false →
      strIncludes (errorMessageLower error) "unauthorized" = false →
      strIncludes (errorMessageLower error) "forbidden" = false →
      strIncludes (errorMessageLower error) "not found" = false →
      strIncludes (errorMessageLower error) "404" = false →
      strIncludes (errorMessageLower error) "timeout" = false →
      strIncludes (errorMessageLower error) "conflict" = false →
      strIncludes (errorMessageLower error) "409" = false →
      getErrorType error = "default")
    ∧ (∀ error : Option JsError,
      getErrorType error = "network" ∨ getErrorType error = "permission" ∨
      getErrorType error = "not_found" ∨ getErrorType error = "timeout" ∨
      getErrorType error = "conflict" ∨ getErrorType error = "default")
    ∧ (errorMessageLower none = ""
      ∧ (∀ i : Nat, errorMessageLower (some { message := none, eid := i }) = "")
      ∧ (∀ (s : String) (i : Nat),
          errorMessageLower (some { message := some s, eid := i }) = strToLower s)) := by
  refine ⟨?_, ?_, ?_, ?_, ?_, ?_, ?_, ?_, ?_, ?_⟩
  · intro error h
    rcases h with h | h | h <;> simp [getErrorType, h]
  · intro error h1 h2 h3 h
    rcases h with h | h | h <;> simp [getErrorType, h, h1, h2, h3]
  · intro error h1 h2 h3 h4 h5 h6 h
    rcases h with h | h <;> simp [getErrorType, h, h1, h2, h3, h4, h5, h6]
  · intro error h1 h2 h3 h4 h5 h6 h7 h8 h
    simp [getErrorType, h, h1, h2, h3, h4, h5, h6, h7, h8]
  · intro error h1 h2 h3 h4 h5 h6 h7 h8 h9 h
    rcases h with h | h <;> simp [getErrorType, h, h1, h2, h3, h4, h5, h6, h7, h8, h9]
  · intro error h1 h2 h3 h4 h5 h6 h7 h8 h9 h10 h11
    simp [getErrorType, h1, h2, h3, h4, h5, h6, h7, h8, h9, h10, h11]
  · intro error
    unfold getErrorType
    dsimp only
    split
    · simp
    · split
      · simp
      · split
        · simp
        · split
          · simp
          · split
            · simp
            · simp
  · rfl
  · intro i; rfl
  · intro s i; rfl

/-- Witness for `getErrorType_spec` at concrete inputs. -/
theorem getErrorType_spec_witness :
    getErrorType (some { message := some "Network Timeout", eid := 0 }) = "network"
    ∧ getErrorType (some { message := some "FORBIDDEN resource", eid := 0 }) = "permission"
    ∧ getErrorType (some { message := some "request timeout", eid := 0 }) = "timeout"
    ∧ (getErrorType none = "network" ∨ getErrorType none = "permission" ∨
       getErrorType none = "not_found" ∨ getErrorType none = "timeout" ∨
       getErrorType none = "conflict" ∨ getErrorType none = "default") :=
  ⟨getErrorType_spec.1 _ (Or.inl (by decide)),
   getErrorType_spec.2.1 _ (by decide) (by decide) (by decide) (Or.inr (Or.inr (by decide))),
   getErrorType_spec.2.2.2.1 _ (by decide) (by decide) (by decide) (by decide) (by decide)
     (by decide) (by decide) (by decide) (by decide),
   getErrorType_spec.2.2.2.2.2.2.1 none⟩

/-- Unfolding equation: a resolved call ends the loop at once, whatever the
remaining budget. -/
theorem retryDeleteAux_resolve (bd : Nat) (df : Nat → DelOutcome) (v : JsValue)
    (remaining attempt : Nat) (h : df attempt = .resolve v) :
    retryDeleteAux bd df remaining attempt = ⟨.ok v, [attempt], []⟩ := by
  unfold retryDeleteAux
  rw [h]

/-- Unfolding equation: a rejection classified as non-retryable stops the
loop at once, whatever the remaining budget. -/
theorem retryDeleteAux_reject_stop (bd : Nat) (df : Nat → DelOutcome) (e : JsError)
    (remaining attempt : Nat) (h : df attempt = .reject e)
    (hr : (handleDeleteError (some e) "").retryable = false) :
    retryDeleteAux bd df remaining attempt = ⟨.error e, [attempt], []⟩ := by
  unfold retryDeleteAux
  rw [h]
  simp [hr]

/-- Unfolding equation: a rejection classified as retryable with budget left
makes the recursive call. -/
theorem retryDeleteAux_reject_retry (bd : Nat) (df : Nat → DelOutcome) (e : JsError)
    (r attempt : Nat) (h : df attempt = .reject e)
    (hr : (handleDeleteError (some e) "").retryable = true) :
    retryDeleteAux bd df (r + 1) attempt =
      ⟨(retryDeleteAux bd df r (attempt + 1)).result,
       attempt :: (retryDeleteAux bd df r (attempt + 1)).callList,
       bd * 2 ^ attempt :: (retryDeleteAux bd df r (attempt + 1)).delays⟩ := by
  conv_lhs => unfold retryDeleteAux
  rw [h]
  simp [hr]

/-- When the delete operation rejects with the same retryable error on every
invocation, the retry loop makes `remaining + 1` calls and propagates the
error unchanged. -/
theorem retryDeleteAux_const_reject (bd : Nat) (df : Nat → DelOutcome) (e : JsError)
    (hdf : ∀ n, df n = .reject e)
    (hr : (handleDeleteError (some e) "").retryable = true) :
    ∀ remaining attempt,
      (retryDeleteAux bd df remaining attempt).callList.length = remaining + 1 ∧
      (retryDeleteAux bd df remaining attempt).result = .error e := by
  intro remaining
  induction remaining with
  | zero => intro attempt; simp [retryDeleteAux, hdf attempt, hr]
  | succ r ih =>
    intro attempt
    have hrw := retryDeleteAux_reject_retry bd df e r attempt (hdf attempt) hr
    have := ih (attempt + 1)
    simp [hrw, this.1, this.2]

/-- **C2.** Behaviour of `DeleteRetryManager.retryDelete` wrapping a delete
operation (modelled by its behaviour per invocation index): (1) an
operation that resolves on the first call is called exactly once and its
result is returned, for every retry configuration; (2) one that always
rejects with a network-classified error is called exactly `1 + maxRetries`
times and the final rejection propagates unchanged; (3) one that rejects
with a permission-classified error is called exactly once; (4) one that
fails twice with retryable errors then succeeds returns the success result
and is called exactly 3 times (default `maxRetries = 3`); (5) the
classification is re-evaluated per attempt: a retryable error followed by a
non-retryable error on the retry stops retrying at that point. -/
theorem retryPolicy_spec :
    (∀ (rm : DeleteRetryManager) (df : Nat → DelOutcome) (v : JsValue),
      df 0 = .resolve v →
      (rm.retryDelete df 0).callList.length = 1 ∧
      (rm.retryDelete df 0).result = .ok v)
    ∧ (∀ (rm : DeleteRetryManager) (df : Nat → DelOutcome) (e : JsError),
      (∀ n, df n = .reject e) → getErrorType (some e) = "network" →
      (rm.retryDelete df 0).callList.length = 1 + rm.maxRetries ∧
      (rm.retryDelete df 0).result = .error e)
    ∧ (∀ (rm : DeleteRetryManager) (df : Nat → DelOutcome) (e : JsError),
      df 0 = .reject e → getErrorType (some e) = "permission" →
      (rm.retryDelete df 0).callList.length = 1 ∧
      (rm.retryDelete df 0).result = .error e)
    ∧ (∀ (df : Nat → DelOutcome) (e0 e1 : JsError) (v : JsValue),
      df 0 = .reject e0 → df 1 = .reject e1 → df 2 = .resolve v →
      (handleDeleteError (some e0) "").retryable = true →
      (handleDeleteError (some e1) "").retryable = true →
      (({} : DeleteRetryManager).retryDelete df 0).callList.length = 3 ∧
      (({} : DeleteRetryManager).retryDelete df 0).result = .ok v)
    ∧ (∀ (rm : DeleteRetryManager) (df : Nat → DelOutcome) (e0 e1 : JsError),
      1 ≤ rm.maxRetries →
      df 0 = .reject e0 → df 1 = .reject e1 →
      (handleDeleteError (some e0) "").retryable = true →
      (handleDeleteError (some e1) "").retryable = false →
      (rm.retryDelete df 0).callList.length = 2 ∧
      (rm.retryDelete df 0).result = .error e1) := by
  refine ⟨?_, ?_, ?_, ?_, ?_⟩
  · intro rm df v h
    simp [DeleteRetryManager.retryDelete,
      retryDeleteAux_resolve rm.baseDelay df v rm.maxRetries 0 h]
  · intro rm df e hdf hnet
    have hr : (handleDeleteError (some e) "").retryable = true := by
      simp [handleDeleteError, hnet]
    have := retryDeleteAux_const_reject rm.baseDelay df e hdf hr rm.maxRetries 0
    simpa [DeleteRetryManager.retryDelete, Nat.add_comm] using this
  · intro rm df e h hperm
    have hr : (handleDeleteError (some e) "").retryable = false := by
      simp [handleDeleteError, hperm]
    simp [DeleteRetryManager.retryDelete,
      retryDeleteAux_reject_stop rm.baseDelay df e rm.maxRetries 0 h hr]
  · intro df e0 e1 v h0 h1 h2 hr0 hr1
    simp [DeleteRetryManager.retryDelete, retryDeleteAux, h0, h1, h2, hr0, hr1]
  · intro rm df e0 e1 hmr h0 h1 hr0 hr1
    obtain ⟨r, hr⟩ : ∃ r, rm.maxRetries = r + 1 :=
      ⟨rm.maxRetries - 1, by omega⟩
    simp [DeleteRetryManager.retryDelete, hr, retryDeleteAux, h0, h1, hr0, hr1]

/-- Witness for `retryPolicy_spec` at concrete inputs. -/
theorem retryPolicy_spec_witness :
    (({} : DeleteRetryManager).retryDelete
        (fun _ => .resolve { truthy := true, vid := 5 }) 0).callList.length = 1
    ∧ (({} : DeleteRetryManager).retryDelete
        (fun _ => .reject netTimeoutErr) 0).callList.length = 4
    ∧ (({} : DeleteRetryManager).retryDelete
        (fun _ => .reject { message := some "permission denied", eid := 2 }) 0).callList.length = 1
    ∧ (({} : DeleteRetryManager).retryDelete
        (fun n => if n < 2 then .reject netTimeoutErr
                  else .resolve { truthy := true, vid := 9 }) 0).result =
        .ok { truthy := true, vid := 9 }
    ∧ (({} : DeleteRetryManager).retryDelete
        (fun n => if n = 0 then .reject netTimeoutErr
                  else .reject { message := some "forbidden", eid := 3 }) 0).callList.length = 2 := by
  refine ⟨?_, ?_, ?_, ?_, ?_⟩
  · exact (retryPolicy_spec.1 {} _ { truthy := true, vid := 5 } rfl).1
  · have := (retryPolicy_spec.2.1 {} (fun _ => .reject netTimeoutErr) netTimeoutErr
      (fun _ => rfl) (by decide)).1
    simpa using this
  · exact (retryPolicy_spec.2.2.1 {} _ { message := some "permission denied", eid := 2 }
      rfl (by decide)).1
  · exact (retryPolicy_spec.2.2.2.1
      (fun n => if n < 2 then .reject netTimeoutErr else .resolve { truthy := true, vid := 9 })
      netTimeoutErr netTimeoutErr { truthy := true, vid := 9 } (by decide) (by decide)
      (by decide) (by decide) (by decide)).2
  · exact (retryPolicy_spec.2.2.2.2 {}
      (fun n => if n = 0 then .reject netTimeoutErr
                else .reject { message := some "forbidden", eid := 3 })
      netTimeoutErr { message := some "forbidden", eid := 3 }
      (by decide) (by decide) (by decide) (by decide) (by decide)).1

/-- **C4.** For every manager state and every id (made pending by
`optimisticDelete`), `optimisticDelete` followed by `rollbackDelete` invokes
the caller's update callback exactly twice — once with the removal
transformation, once with the reinsertion transformation, both on the
stored callback — and afterwards no pending record remains (neither
snapshot nor rollback callback); the reinsertion transformation returns the
collection unchanged when an element with that id is already present; and
`rollbackDelete` on an id with no pending record invokes no callback and
returns the state unchanged (it is a total function, so it cannot throw). -/
theorem optimistic_rollback_spec :
    (∀ (st : OptimisticDeleteManager Nat) (id : String) (pd : Project) (cb : Nat),
      (st.optimisticDelete id pd cb).2 = [(cb, .removeById id)]
      ∧ ((st.optimisticDelete id pd cb).1.rollbackDelete id).2 = [(cb, .reinsert id pd)]
      ∧ (st.optimisticDelete id pd cb).2.length +
          ((st.optimisticDelete id pd cb).1.rollbackDelete id).2.length = 2
      ∧ ((st.optimisticDelete id pd cb).1.rollbackDelete id).1.pending id = false
      ∧ ((st.optimisticDelete id pd cb).1.rollbackDelete id).1.rollbackCallbacks.get id
          = none)
    ∧ (∀ (id : String) (pd : Project) (l : List Project),
      l.any (fun p => p.id = id) = true → applyTransform (.reinsert id pd) l = l)
    ∧ (∀ (st : OptimisticDeleteManager Nat) (id : String),
      st.pending id = false → st.rollbackDelete id = (st, [])) := by
  refine ⟨?_, ?_, ?_⟩
  · intro st id pd cb
    refine ⟨rfl, ?_, ?_, ?_, ?_⟩ <;>
      simp [OptimisticDeleteManager.optimisticDelete,
        OptimisticDeleteManager.rollbackDelete, OptimisticDeleteManager.pending,
        MapM.hasKey]
  · intro id pd l h
    simp [applyTransform, h]
  · intro st id h
    have hget : st.deletedProjects.get id = none := by
      unfold OptimisticDeleteManager.pending MapM.hasKey at h
      cases hcase : st.deletedProjects.get id with
      | none => rfl
      | some v => rw [hcase] at h; simp at h
    cases hc : st.rollbackCallbacks.get id <;>
      simp [OptimisticDeleteManager.rollbackDelete, hget, hc]

/-- Witness for `optimistic_rollback_spec` at concrete inputs. -/
theorem optimistic_rollback_spec_witness :
    applyTransform (.reinsert "p1" roofRepair) [roofRepair] = [roofRepair]
    ∧ (OptimisticDeleteManager.empty : OptimisticDeleteManager Nat).rollbackDelete "p9" =
        (OptimisticDeleteManager.empty, []) :=
  ⟨optimistic_rollback_spec.2.1 "p1" roofRepair [roofRepair] (by decide),
   optimistic_rollback_spec.2.2 OptimisticDeleteManager.empty "p9" (by decide)⟩

/-- **C5.** The snapshot map and the rollback-callback map have identical
key sets after each of the four operations (given they agree beforehand);
after `optimisticDelete id` the id is pending; and `confirmDelete` and
`rollbackDelete` are idempotent no-ops (state unchanged, no throw — both
are total functions) when the id is not pending. -/
theorem optimistic_sync_invariant :
    (∀ (st : OptimisticDeleteManager Nat) (id : String) (pd : Project) (cb : Nat),
      (∀ k, st.deletedProjects.hasKey k = st.rollbackCallbacks.hasKey k) →
      ∀ k, (st.optimisticDelete id pd cb).1.deletedProjects.hasKey k =
           (st.optimisticDelete id pd cb).1.rollbackCallbacks.hasKey k)
    ∧ (∀ (st : OptimisticDeleteManager Nat) (id : String),
      (∀ k, st.deletedProjects.hasKey k = st.rollbackCallbacks.hasKey k) →
      ∀ k, (st.confirmDelete id).deletedProjects.hasKey k =
           (st.confirmDelete id).rollbackCallbacks.hasKey k)
    ∧ (∀ (st : OptimisticDeleteManager Nat) (id : String),
      (∀ k, st.deletedProjects.hasKey k = st.rollbackCallbacks.hasKey k) →
      ∀ k, (st.rollbackDelete id).1.deletedProjects.hasKey k =
           (st.rollbackDelete id).1.rollbackCallbacks.hasKey k)
    ∧ (∀ (st : OptimisticDeleteManager Nat) (k : String),
      st.clearAll.deletedProjects.hasKey k = st.clearAll.rollbackCallbacks.hasKey k)
    ∧ (∀ (st : OptimisticDeleteManager Nat) (id : String) (pd : Project) (cb : Nat),
      (st.optimisticDelete id pd cb).1.pending id = true)
    ∧ (∀ (st : OptimisticDeleteManager Nat) (id : String),
      (∀ k, st.deletedProjects.hasKey k = st.rollbackCallbacks.hasKey k) →
      st.pending id = false → st.confirmDelete id = st)
    ∧ (∀ (st : OptimisticDeleteManager Nat) (id : String),
      st.pending id = false → st.rollbackDelete id = (st, [])) := by
  refine ⟨?_, ?_, ?_, ?_, ?_, ?_, ?_⟩
  · intro st id pd cb hsync k
    simp [OptimisticDeleteManager.optimisticDelete, MapM.hasKey_set, hsync k]
  · intro st id hsync k
    simp [OptimisticDeleteManager.confirmDelete, MapM.hasKey_del, hsync k]
  · intro st id hsync k
    unfold OptimisticDeleteManager.rollbackDelete
    cases hd : st.deletedProjects.get id <;> cases hc : st.rollbackCallbacks.get id <;>
      simp [MapM.hasKey_del, hsync k]
  · intro st k
    rfl
  · intro st id pd cb
    simp [OptimisticDeleteManager.optimisticDelete, OptimisticDeleteManager.pending,
      MapM.hasKey]
  · intro st id hsync h
    have hd : st.deletedProjects.hasKey id = false := h
    have hc : st.rollbackCallbacks.hasKey id = false := (hsync id).symm.trans h
    cases st with
    | mk dp rc =>
      simp only [OptimisticDeleteManager.confirmDelete]
      rw [MapM.del_of_not_hasKey dp id hd, MapM.del_of_not_hasKey rc id hc]
  · intro st id h
    have hget : st.deletedProjects.get id = none := by
      unfold OptimisticDeleteManager.pending MapM.hasKey at h
      cases hcase : st.deletedProjects.get id with
      | none => rfl
      | some v => rw [hcase] at h; simp at h
    cases hc : st.rollbackCallbacks.get id <;>
      simp [OptimisticDeleteManager.rollbackDelete, hget, hc]

/-- Witness for `optimistic_sync_invariant` at concrete inputs. -/
theorem optimistic_sync_invariant_witness :
    (∀ k, ((OptimisticDeleteManager.empty :
        OptimisticDeleteManager Nat).optimisticDelete "p1" roofRepair 0).1.deletedProjects.hasKey k =
      ((OptimisticDeleteManager.empty :
        OptimisticDeleteManager Nat).optimisticDelete "p1" roofRepair 0).1.rollbackCallbacks.hasKey k)
    ∧ ((OptimisticDeleteManager.empty :
        OptimisticDeleteManager Nat).optimisticDelete "p1" roofRepair 0).1.pending "p1" = true
    ∧ (OptimisticDeleteManager.empty : OptimisticDeleteManager Nat).confirmDelete "p9" =
        OptimisticDeleteManager.empty :=
  ⟨optimistic_sync_invariant.1 OptimisticDeleteManager.empty "p1" roofRepair 0
      (fun _ => rfl),
   optimistic_sync_invariant.2.2.2.2.1 OptimisticDeleteManager.empty "p1" roofRepair 0,
   optimistic_sync_invariant.2.2.2.2.2.1 OptimisticDeleteManager.empty "p9"
      (fun _ => rfl) (by decide)⟩

/-- The string produced by `toFixed1` always has the shape
`<integer>.<single digit>`. -/
theorem toFixed1_shape (q : Rat) :
    ∃ a : Int, ∃ b : Nat, b < 10 ∧ toFixed1 q = toString a ++ "." ++ toString b := by
  unfold toFixed1
  dsimp only
  generalize Int.fdiv (20 * q.num + (q.den : Int)) (2 * (q.den : Int)) = t
  refine ⟨t / 10, (t % 10).natAbs, ?_, rfl⟩
  have h1 : 0 ≤ t % 10 := Int.emod_nonneg t (by norm_num)
  have h2 : t % 10 < 10 := Int.emod_lt_of_pos t (by norm_num)
  omega

/-- **C6.** After 2 recorded successes and 1 recorded failure (whatever the
latencies and the failure's error), `getStats()` reports `totalDeletes = 3`,
`successfulDeletes = 2`, `failedDeletes = 1`, `successRate = "66.7"` (a
string), and the failure counted under its classification in the
per-category map; `successRate` is a one-decimal percentage string whenever
`totalDeletes > 0` and the number `0` when `totalDeletes = 0`; and after
`resetStats()` every counter is zero and the category map and sample
history are empty. -/
theorem deleteStats_spec :
    (∀ (rt1 rt2 rt3 : Int) (err : Option JsError),
      ((((({} : DeleteStatsManager).recordSuccess rt1).recordSuccess rt2).recordFailure
          rt3 err).getStats.totalDeletes = 3)
      ∧ ((((({} : DeleteStatsManager).recordSuccess rt1).recordSuccess rt2).recordFailure
          rt3 err).getStats.successfulDeletes = 2)
      ∧ ((((({} : DeleteStatsManager).recordSuccess rt1).recordSuccess rt2).recordFailure
          rt3 err).getStats.failedDeletes = 1)
      ∧ ((((({} : DeleteStatsManager).recordSuccess rt1).recordSuccess rt2).recordFailure
          rt3 err).getStats.successRate = .str "66.7")
      ∧ ((((({} : DeleteStatsManager).recordSuccess rt1).recordSuccess rt2).recordFailure
          rt3 err).getStats.errorTypes.get (getErrorType err) = some 1))
    ∧ (∀ s : DeleteStatsManager, 0 < s.totalDeletes →
      ∃ a : Int, ∃ b : Nat, b < 10 ∧
        s.getStats.successRate = .str (toString a ++ "." ++ toString b))
    ∧ (∀ s : DeleteStatsManager, s.totalDeletes = 0 → s.getStats.successRate = .num 0)
    ∧ (∀ s : DeleteStatsManager,
      s.resetStats.totalDeletes = 0 ∧ s.resetStats.successfulDeletes = 0
      ∧ s.resetStats.failedDeletes = 0 ∧ s.resetStats.errorTypes = MapM.empty
      ∧ s.resetStats.averageResponseTime = 0 ∧ s.resetStats.responseTimes = []) := by
  refine ⟨?_, ?_, ?_, ?_⟩
  · intro rt1 rt2 rt3 err
    refine ⟨rfl, rfl, rfl, ?_, ?_⟩
    · show (if (3 : Nat) > 0 then
          SuccessRate.str (toFixed1 (mkRat (100 * ((2 : Nat) : Int)) 3)) else .num 0) =
        .str "66.7"
      decide
    · show (MapM.set MapM.empty (getErrorType err) ((MapM.get MapM.empty
          (getErrorType err)).getD 0 + 1)).get (getErrorType err) = some 1
      rw [MapM.get_set_self]
      rfl
  · intro s h
    obtain ⟨a, b, hb, hs⟩ :=
      toFixed1_shape (mkRat (100 * (s.successfulDeletes : Int)) s.totalDeletes)
    refine ⟨a, b, hb, ?_⟩
    simp [DeleteStatsManager.getStats, h, hs]
  · intro s h
    simp [DeleteStatsManager.getStats, h]
  · intro s
    exact ⟨rfl, rfl, rfl, rfl, rfl, rfl⟩

/-- Witness for `deleteStats_spec` at concrete inputs. -/
theorem deleteStats_spec_witness :
    ((((({} : DeleteStatsManager).recordSuccess 5).recordSuccess 7).recordFailure
        9 (some netTimeoutErr)).getStats.successRate = .str "66.7")
    ∧ (∃ a : Int, ∃ b : Nat, b < 10 ∧
        (({} : DeleteStatsManager).recordSuccess 5).getStats.successRate =
          .str (toString a ++ "." ++ toString b))
    ∧ ({} : DeleteStatsManager).getStats.successRate = .num 0 :=
  ⟨(deleteStats_spec.1 5 7 9 (some netTimeoutErr)).2.2.2.1,
   deleteStats_spec.2.1 _ (by decide),
   deleteStats_spec.2.2.1 {} rfl⟩

/-! ## Claim C7: the average is over the most recent at-most-100 samples -/

/-- A terminal statistics record: a success or a failure, with the observed
latency sample (and, for failures, the error). -/
inductive StatsOp
  | success (rt : Int)
  | failure (rt : Int) (err : Option JsError)
deriving DecidableEq

def statsStep (s : DeleteStatsManager) : StatsOp → DeleteStatsManager
  | .success rt => s.recordSuccess rt
  | .failure rt err => s.recordFailure rt err

def applyStatsOps (ops : List StatsOp) : DeleteStatsManager :=
  ops.foldl statsStep {}

/-- Each record call recomputes the average over `slice(-100)` of the
updated sample list. -/
theorem statsStep_avg (s : DeleteStatsManager) (op : StatsOp) :
    (statsStep s op).averageResponseTime =
      mkRat (lastN 100 (statsStep s op).responseTimes).sum
            (lastN 100 (statsStep s op).responseTimes).length := by
  cases op <;> rfl

/-- **C7.** For every sequence of `recordSuccess`/`recordFailure` calls
(successes and failures alike contribute samples), the reported average
response time equals the arithmetic mean of the most recent at-most-100
recorded latency samples; and it is in general not the mean over the full
history (witnessed by a 101-sample run). -/
theorem averageResponseTime_window :
    (∀ ops : List StatsOp, (applyStatsOps ops).responseTimes ≠ [] →
      (applyStatsOps ops).averageResponseTime =
        mkRat (lastN 100 (applyStatsOps ops).responseTimes).sum
              (lastN 100 (applyStatsOps ops).responseTimes).length)
    ∧ (∃ ops : List StatsOp,
      (applyStatsOps ops).averageResponseTime ≠
        mkRat (applyStatsOps ops).responseTimes.sum
              (applyStatsOps ops).responseTimes.length) := by
  constructor
  · have key : ∀ (ops : List StatsOp) (s : DeleteStatsManager),
        (s.responseTimes ≠ [] → s.averageResponseTime =
          mkRat (lastN 100 s.responseTimes).sum (lastN 100 s.responseTimes).length) →
        ((List.foldl statsStep s ops).responseTimes ≠ [] →
          (List.foldl statsStep s ops).averageResponseTime =
            mkRat (lastN 100 (List.foldl statsStep s ops).responseTimes).sum
                  (lastN 100 (List.foldl statsStep s ops).responseTimes).length) := by
      intro ops
      induction ops with
      | nil => intro s hs; exact hs
      | cons op t ih =>
        intro s _
        exact ih (statsStep s op) (fun _ => statsStep_avg s op)
    intro ops
    exact key ops {} (fun hne => absurd rfl hne)
  · exact ⟨.success 101 :: List.replicate 100 (.success 0), by
      set_option maxRecDepth 100000 in decide⟩

/-- Witness for `averageResponseTime_window` at a concrete input. -/
theorem averageResponseTime_window_witness :
    (applyStatsOps [.success 5, .success 7]).responseTimes ≠ []
    ∧ (applyStatsOps [.success 5, .success 7]).averageResponseTime =
        mkRat (lastN 100 (applyStatsOps [.success 5, .success 7]).responseTimes).sum
              (lastN 100 (applyStatsOps [.success 5, .success 7]).responseTimes).length :=
  ⟨by decide, averageResponseTime_window.1 [.success 5, .success 7] (by decide)⟩

/-- **C9.** After tracking 101 distinct objects under a single type tag from
a fresh detector, `checkForLeaks()` emits exactly one leak warning, naming
that tag (and its count); for every state, tracking then untracking an
object returns that tag's counter to its prior value (counters are never
negative in reachable states, stated as the hypothesis `0 ≤ counter`); and
`untrackObject` never takes a counter below zero. -/
theorem leakDetector_spec :
    (((List.range 101).foldl
        (fun d i => d.trackObject i "DeleteProjectData" 0)
        (MemoryLeakDetector.empty : MemoryLeakDetector Nat)).checkForLeaks
      = [("DeleteProjectData", 101)])
    ∧ (∀ (d : MemoryLeakDetector Nat) (obj : Nat) (tag : String) (now : Nat),
        0 ≤ d.counterOf tag →
        ((d.trackObject obj tag now).untrackObject obj).counterOf tag = d.counterOf tag)
    ∧ (∀ (d : MemoryLeakDetector Nat) (obj : Nat) (tag : String),
        0 ≤ d.counterOf tag → 0 ≤ (d.untrackObject obj).counterOf tag) := by
  refine ⟨?_, ?_, ?_⟩
  · set_option maxRecDepth 1000000 in decide
  · intro d obj tag now h
    simp only [MemoryLeakDetector.trackObject, MemoryLeakDetector.untrackObject,
      MemoryLeakDetector.counterOf, MapM.get_set_self, Option.getD_some]
    have h2 : (d.counters.get tag).getD 0 + 1 - 1 = (d.counters.get tag).getD 0 := by omega
    rw [h2]
    exact max_eq_right h
  · intro d obj tag h
    unfold MemoryLeakDetector.untrackObject
    cases href : d.references.get obj with
    | none => exact h
    | some ref =>
      unfold MemoryLeakDetector.counterOf at *
      dsimp only
      by_cases htag : tag = ref.type
      · subst htag
        rw [MapM.get_set_self]
        simp only [Option.getD_some]
        exact le_max_left 0 _
      · rw [MapM.get_set_ne _ _ _ _ htag]
        exact h

/-- Witness for `leakDetector_spec` at concrete inputs. -/
theorem leakDetector_spec_witness :
    (((MemoryLeakDetector.empty : MemoryLeakDetector Nat).trackObject 42 "T" 0).untrackObject
        42).counterOf "T" = (MemoryLeakDetector.empty : MemoryLeakDetector Nat).counterOf "T"
    ∧ 0 ≤ ((MemoryLeakDetector.empty : MemoryLeakDetector Nat).untrackObject 7).counterOf "T" :=
  ⟨leakDetector_spec.2.1 MemoryLeakDetector.empty 42 "T" 0 (by decide),
   leakDetector_spec.2.2 MemoryLeakDetector.empty 7 "T" (by decide)⟩

/-- **C8 (evaluation at the failing input).**  `startLeakDetection` called a
second time without an intervening stop: the second call overwrites
`checkInterval` with the new timer id, leaving the first interval alive —
two timers are active where the claim allows at most one.  The subsequent
`stopLeakDetection` cancels only the most recent timer and clears the
handle, and a further stop is a no-op, so the first timer can never be
cancelled through the detector.  (The second half of the claim —
stop cancels the timer and clears the handle — does hold.) -/
theorem leakTimer_double_start_eval :
    (let d0 : MemoryLeakDetector Nat := MemoryLeakDetector.empty
     let s1 := d0.startLeakDetection {}
     let s2 := s1.1.startLeakDetection s1.2
     let s3 := s2.1.stopLeakDetection s2.2
     s2.2.active = [1, 2]
     ∧ s2.1.checkInterval = some 2
     ∧ s3.2.active = [1]
     ∧ s3.1.checkInterval = none
     ∧ s3.1.stopLeakDetection s3.2 = (s3.1, s3.2)) := by
  decide

/-- **C10.** The listener registry deduplicates by the composite string key
`constructor.name + "-" + type + "-" + (listener.name || "anonymous")`, not
by listener identity: for any two distinct listener functions sharing a
name (or both anonymous), on targets of the same constructor and the same
event type, the second `addEventListener` call performs no registration on
the target, leaves the registry unchanged, and does not increase the
listener count. -/
theorem listener_dedup_by_key :
    ∀ (m : EventListenerManager) (t1 t2 : EvtTarget) (type : String)
      (l1 l2 : JsListener) (o1 o2 : Nat),
      t1.ctorName = t2.ctorName → l1.name = l2.name → l1.lid ≠ l2.lid →
      ((m.addEventListener t1 type l1 o1).1.addEventListener t2 type l2 o2).1 =
        (m.addEventListener t1 type l1 o1).1
      ∧ ((m.addEventListener t1 type l1 o1).1.addEventListener t2 type l2 o2).2 = []
      ∧ ((m.addEventListener t1 type l1 o1).1.addEventListener t2 type l2 o2).1.getListenerCount
          = (m.addEventListener t1 type l1 o1).1.getListenerCount := by
  intro m t1 t2 ty l1 l2 o1 o2 hc hn hl
  have hkey : getListenerKey t2 ty l2 = getListenerKey t1 ty l1 := by
    unfold getListenerKey
    rw [← hc, ← hn]
  have hm1 : ((m.addEventListener t1 ty l1 o1).1).listeners.hasKey
      (getListenerKey t1 ty l1) = true := by
    unfold EventListenerManager.addEventListener
    dsimp only
    by_cases hk : m.listeners.hasKey (getListenerKey t1 ty l1)
    · rw [if_pos hk]
      exact hk
    · rw [if_neg hk]
      simp [MapM.hasKey, MapM.get_set_self]
  set m1 := (m.addEventListener t1 ty l1 o1).1 with hm1def
  refine ⟨?_, ?_, ?_⟩ <;>
    · conv_lhs => unfold EventListenerManager.addEventListener
      dsimp only
      rw [hkey, if_pos hm1]

/-- Witness for `listener_dedup_by_key` at concrete inputs: two distinct
anonymous listeners on two distinct buttons. -/
theorem listener_dedup_by_key_witness :
    ((EventListenerManager.empty.addEventListener ⟨"HTMLButtonElement", 1⟩ "click"
        ⟨"", 10⟩ 0).1.addEventListener ⟨"HTMLButtonElement", 2⟩ "click"
        ⟨"", 11⟩ 0).2 = []
    ∧ ((EventListenerManager.empty.addEventListener ⟨"HTMLButtonElement", 1⟩ "click"
        ⟨"", 10⟩ 0).1.addEventListener ⟨"HTMLButtonElement", 2⟩ "click"
        ⟨"", 11⟩ 0).1.getListenerCount =
      ((EventListenerManager.empty.addEventListener ⟨"HTMLButtonElement", 1⟩ "click"
        ⟨"", 10⟩ 0).1).getListenerCount :=
  ⟨(listener_dedup_by_key EventListenerManager.empty ⟨"HTMLButtonElement", 1⟩
      ⟨"HTMLButtonElement", 2⟩ "click" ⟨"", 10⟩ ⟨"", 11⟩ 0 0 rfl rfl (by decide)).2.1,
   (listener_dedup_by_key EventListenerManager.empty ⟨"HTMLButtonElement", 1⟩
      ⟨"HTMLButtonElement", 2⟩ "click" ⟨"", 10⟩ ⟨"", 11⟩ 0 0 rfl rfl (by decide)).2.2⟩

/-- **C1 (counterexample to the claim as stated).**  In the end-to-end
scenario — `executeDelete("p1", snapshot, updateFn)` with a delete
operation that rejects with `Error("network timeout")` three times and then
resolves `true` — the final `getError("p1")` is `null` (`some none`), not
`undefined` (`none`): `executeDelete` initialises the per-id error entry to
`null` on entry and the success path never removes it, so the strict
comparison `getError("p1") === undefined` in the claim is false. -/
theorem executeDelete_getError_null_counterexample :
    getDeleteError (executeDelete {} {} "p1" (some roofRepair) true dfNetThenOk 0 5).1 "p1"
      = some none
    ∧ some (none : Option ErrorInfo) ≠ (none : Option (Option ErrorInfo)) :=
  ⟨by decide, by decide⟩

/-- **C1 (amended).**  End-to-end scenario, amended only in the
`getError` clause: with default configuration, id `"p1"`, the snapshot
`{id:"p1", title:"Roof Repair"}` and an update callback, where the delete
operation rejects with `Error("network timeout")` on its first three
invocations and then resolves `true`: the optimistic removal callback fires
exactly once and immediately (it is the first observable effect, before any
delete call), no rollback reinsertion occurs, the underlying delete
operation is invoked exactly 4 times (with backoff delays 1000/2000/4000
ms), `executeDelete` returns `true`, afterwards `isDeleting("p1")` is
`false`, `getError("p1")` is `null` (not `undefined`), no pending
optimistic record remains, and the success callback fires exactly once with
`("p1", snapshot)`. -/
theorem executeDelete_endToEnd_amended :
    (executeDelete {} {} "p1" (some roofRepair) true dfNetThenOk 0 5).2.1 =
      [Ev.uiUpdate (.removeById "p1"), Ev.deleteCall 0, Ev.deleteCall 1,
       Ev.deleteCall 2, Ev.deleteCall 3, Ev.successCb "p1" (some roofRepair)]
    ∧ (executeDelete {} {} "p1" (some roofRepair) true dfNetThenOk 0 5).2.2 = true
    ∧ isDeleting (executeDelete {} {} "p1" (some roofRepair) true dfNetThenOk 0 5).1 "p1"
        = false
    ∧ getDeleteError (executeDelete {} {} "p1" (some roofRepair) true dfNetThenOk 0 5).1 "p1"
        = some none
    ∧ (executeDelete {} {} "p1" (some roofRepair) true
        dfNetThenOk 0 5).1.optimistic.pending "p1" = false
    ∧ (DeleteRetryManager.retryDelete {} dfNetThenOk 0).delays = [1000, 2000, 4000] := by
  refine ⟨?_, ?_, ?_, ?_, ?_, ?_⟩ <;> decide
